import Mathlib

/-!
Shallow embedding of the azure-integration repository (Lightning Web
Component layer plus the spec-described service layer) and proofs of the
frozen claims about it.

Sources embedded:
- force-app/main/default/lwc/azureDevOpsWorkItemCreator/azureDevOpsWorkItemCreator.js
- force-app/main/default/lwc/azureIntegration/azureIntegration.js
- force-app/main/default/lwc/universalModal/universalModal.js
- unnamed/part_001 (AzureDevOpsWorkItemManager)
- the work-item editor excerpt (AzureDevOpsWorkItemEditor.handleSave)
- service-layer pieces not present under src are modelled from the spec
  and are marked as such in their doc comments.
-/

/-! ## A small model of JavaScript runtime values -/

/-- A JavaScript value as needed by this embedding: strings, integer
numbers, the NaN number, booleans, null and undefined. -/
inductive JsValue where
  | vStr (s : String)
  | vNum (n : Int)
  | vNan
  | vBool (b : Bool)
  | vNull
  | vUndefined
deriving DecidableEq, Repr

/-- JavaScript truthiness of a value. -/
def jsTruthy : JsValue → Bool
  | JsValue.vStr s => s != ""
  | JsValue.vNum n => n != 0
  | JsValue.vNan => false
  | JsValue.vBool b => b
  | JsValue.vNull => false
  | JsValue.vUndefined => false

/-- Whether a JavaScript value is a string. -/
def JsValue.isStr : JsValue → Bool
  | JsValue.vStr _ => true
  | _ => false

/-- JavaScript String(value) conversion for the values of this model. -/
def jsToString : JsValue → String
  | JsValue.vStr s => s
  | JsValue.vNum n => toString n
  | JsValue.vNan => "NaN"
  | JsValue.vBool b => cond b "true" "false"
  | JsValue.vNull => "null"
  | JsValue.vUndefined => "undefined"

/-- JavaScript String.prototype.toLowerCase, modelled characterwise. -/
def jsToLower (s : String) : String :=
  String.mk (s.data.map Char.toLower)

/-- JavaScript String.prototype.trim: whitespace removed from both
ends, modelled on the character list. -/
def jsTrim (s : String) : String :=
  String.mk (((s.data.dropWhile Char.isWhitespace).reverse.dropWhile Char.isWhitespace).reverse)

/-- Value of a maximal leading run of decimal digits; none when there is
no leading digit (parseInt would yield NaN). -/
def digitsVal (cs : List Char) : Option Nat :=
  let ds := cs.takeWhile (fun c => c.isDigit)
  if ds.isEmpty then none
  else some (ds.foldl (fun a c => a * 10 + (c.toNat - 48)) 0)

/-- JavaScript parseInt(s, 10): trim whitespace, optional sign, then the
longest decimal-digit run; none models the NaN outcome. -/
def jsParseInt10 (s : String) : Option Int :=
  match (jsTrim s).toList with
  | '-' :: rest => (digitsVal rest).map (fun n => -(n : Int))
  | '+' :: rest => (digitsVal rest).map (fun n => (n : Int))
  | cs => (digitsVal cs).map (fun n => (n : Int))

/-- The JavaScript number produced by parseInt(s, 10): an integer when a
digit run is found, NaN otherwise. -/
def jsParseIntEncode (s : String) : JsValue :=
  match jsParseInt10 s with
  | some n => JsValue.vNum n
  | none => JsValue.vNan

/-- JavaScript String.prototype.includes: substring containment. -/
def jsIncludes (hay needle : String) : Bool :=
  (hay.toList.tails).any (fun t => needle.toList.isPrefixOf t)

/-! ## Error taxonomy (spec section 7) -/

/-- Classified failures of the integration service layer. -/
inductive AzureError where
  | validationError
  | configurationError
  | authenticationError (msg : String)
deriving DecidableEq, Repr

/-! ## PatchCodec and terminal-state stripping

The service layer (AzureDevOpsService.cls) is not under src; the
definitions below are modelled from the spec (sections 4.4 and the
terminal-state rule) and the removeTerminalState excerpt in
.github/copilot-instructions.md. -/

/-- The configured terminal-state names, held lowercase for the
case-insensitive comparison the spec mandates. -/
def terminalStates : List String := ["done", "closed", "resolved"]

/-- Case-insensitive membership of a state value in the terminal set. -/
def isTerminalState (v : String) : Bool :=
  terminalStates.contains (jsToLower v)

/-- Lookup of a field value in a FieldSet (insertion-ordered, unique
keys). -/
def lookupField (key : String) (fields : List (String × JsValue)) : Option JsValue :=
  (fields.find? (fun kv => kv.1 == key)).map (fun kv => kv.2)

/-- Modelled from the spec: AzureDevOpsService.removeTerminalState is not
under src. Per spec section 4.4 and the doc excerpt, before a create the
codec removes the System.State entry when its value matches a terminal
state name case-insensitively. -/
def removeTerminalState (fields : List (String × JsValue)) : List (String × JsValue) :=
  match lookupField "System.State" fields with
  | some (JsValue.vStr v) =>
      if isTerminalState v then fields.filter (fun kv => kv.1 != "System.State")
      else fields
  | _ => fields

/-- One JSON-Patch operation. -/
structure PatchOp where
  op : String
  path : String
  value : JsValue
deriving DecidableEq, Repr

/-- Modelled from the spec: buildPatchBody in the service layer is not
under src. Each FieldSet entry becomes one add operation at
/fields/<key>, in insertion order. -/
def buildPatch (fields : List (String × JsValue)) : List PatchOp :=
  fields.map (fun kv => { op := "add", path := "/fields/" ++ kv.1, value := kv.2 })

/-- Modelled from the spec: the patch emitted for a create operation is
built from the FieldSet after terminal-state stripping. -/
def buildCreatePatch (fields : List (String × JsValue)) : List PatchOp :=
  buildPatch (removeTerminalState fields)

/-! ## AuthResolver (spec section 4.3)

AzureDevOpsService dual-auth is not under src; modelled from the spec and
the doc excerpt in .github/copilot-instructions.md. -/

/-- A connection configuration as the auth resolver sees it: an optional
managed (named) credential and an optional secret token. -/
structure AuthConfig where
  namedCredential : Option String
  personalAccessToken : Option String
deriving DecidableEq, Repr

/-- Whether the configuration declares a managed credential channel. -/
def AuthConfig.hasNamedCredential (c : AuthConfig) : Bool :=
  c.namedCredential.isSome

/-- Whether the configuration carries a secret token. -/
def AuthConfig.hasPersonalAccessToken (c : AuthConfig) : Bool :=
  c.personalAccessToken.isSome

/-- One observed authentication attempt. -/
inductive AuthAttempt where
  | managed
  | secretToken
deriving DecidableEq, Repr

/-- Modelled from the spec: the dual-auth fallback of
AzureDevOpsService.cls (not under src). The managed strategy is tried
first when configured; on a domain error the secret-token strategy is
tried exactly once when a token is present, and its outcome is final;
with only a token the secret strategy is used directly; with neither the
call fails fast with a configuration error. The outcome of each strategy
is passed in, and the attempts actually made are recorded. -/
def resolveAuth {R : Type} (cfg : AuthConfig)
    (managed : Except AzureError R) (secret : Except AzureError R) :
    Except AzureError R × List AuthAttempt :=
  if cfg.hasNamedCredential then
    match managed with
    | Except.ok r => (Except.ok r, [AuthAttempt.managed])
    | Except.error e =>
        if cfg.hasPersonalAccessToken then (secret, [AuthAttempt.managed, AuthAttempt.secretToken])
        else (Except.error e, [AuthAttempt.managed])
  else if cfg.hasPersonalAccessToken then (secret, [AuthAttempt.secretToken])
  else (Except.error AzureError.configurationError, [])

/-! ## loadPriorities (azureDevOpsWorkItemCreator.js) -/

/-- A priority definition as returned by the Apex getPriorities call. -/
structure PriorityDef where
  value : JsValue
  label : String
deriving DecidableEq, Repr

/-- A combobox option. -/
structure SelectOpt where
  label : String
  value : String
deriving DecidableEq, Repr

/-- getDefaultPriorityOptions from azureDevOpsWorkItemCreator.js. -/
def getDefaultPriorityOptions : List SelectOpt :=
  ["1", "2", "3", "4"].map (fun v => { label := v, value := v })

/-- loadPriorities from azureDevOpsWorkItemCreator.js. The argument is
the outcome of the getPriorities call: error models the rejected
promise, ok none models a null or non-array payload, ok (some l) an
array. The guard is data and Array.isArray(data) and data.length greater
than zero; otherwise, and in the catch branch, the defaults are used. -/
def loadPriorities (res : Except String (Option (List PriorityDef))) : List SelectOpt :=
  match res with
  | Except.ok (some l) =>
      if l.length > 0 then l.map (fun p => { label := p.label, value := jsToString p.value })
      else getDefaultPriorityOptions
  | Except.ok none => getDefaultPriorityOptions
  | Except.error _ => getDefaultPriorityOptions

/-! ## checkPermission (azureDevOpsWorkItemCreator.js / part_001) -/

/-- checkPermission from azureDevOpsWorkItemCreator.js and part_001: the
hasEditPermission result is coerced to boolean with not-not, and a thrown error
sets hasEdit to false. -/
def checkPermission (res : Except String JsValue) : Bool :=
  match res with
  | Except.ok v => jsTruthy v
  | Except.error _ => false

/-! ## buildColumns (part_001, AzureDevOpsWorkItemManager) -/

/-- One row action of a datatable action column. -/
structure RowAction where
  label : String
  name : String
deriving DecidableEq, Repr

/-- A datatable column: either a field column or the action column. -/
inductive Column where
  | field (label fieldName colType : String)
  | action (rowActions : List RowAction)
deriving DecidableEq, Repr

/-- buildColumns from part_001: seven field columns, then the action
column whose row actions include Edit and Delete only when hasEdit, and
always Open in Azure. -/
def buildColumns (hasEdit : Bool) : List Column :=
  let base : List Column :=
    [ Column.field "ID" "workItemId" "number",
      Column.field "Title" "title" "text",
      Column.field "Type" "workItemType" "text",
      Column.field "State" "state" "text",
      Column.field "Assigned To" "assignedTo" "text",
      Column.field "Created Date" "createdDate" "date",
      Column.field "Priority" "priority" "text" ]
  let actions : List RowAction :=
    (if hasEdit then [{ label := "Edit", name := "edit" }, { label := "Delete", name := "delete" }] else [])
      ++ [{ label := "Open in Azure", name := "open_azure" }]
  base ++ [Column.action actions]

/-- The names of all row actions carried by the action columns of a
column list. -/
def rowActionNames (cols : List Column) : List String :=
  (cols.map (fun c =>
    match c with
    | Column.action ra => ra.map (fun a => a.name)
    | Column.field _ _ _ => [])).flatten

/-! ## handleCreateWorkItem (azureDevOpsWorkItemCreator.js) -/

/-- The component state of AzureDevOpsWorkItemCreator that
handleCreateWorkItem reads. -/
structure CreatorState where
  hasEdit : Bool
  selectedConfig : String
  selectedWorkItemType : String
  title : String
  description : String
  selectedState : String
  selectedPriority : String
deriving DecidableEq, Repr

/-- The argument object of the createWorkItem Apex call. -/
structure CreateArgs where
  configName : String
  workItemType : String
  title : String
  description : String
  state : String
  priority : JsValue
deriving DecidableEq, Repr

/-- The response object of the createWorkItem Apex call. -/
structure CreateResponse where
  success : Bool
  workItemId : Int
  workItemType : String
  title : String
  workItemUrl : String
  message : String
deriving DecidableEq, Repr

/-- An observable effect of handleCreateWorkItem: an error toast, the
createWorkItem Apex invocation, or closing the modal with a success
payload. -/
inductive CreateEffect where
  | errorToast (title message : String)
  | createCall (args : CreateArgs)
  | closeModal (success : Bool) (message : String)
deriving DecidableEq, Repr

/-- handleCreateWorkItem from azureDevOpsWorkItemCreator.js, as the
ordered list of its observable effects. The remote parameter gives the
outcome of the createWorkItem Apex call for given arguments; a thrown
error is the error case. Guards in source order: permission, required
fields, then the call with title trimmed, description defaulted to the
empty string, state defaulted to To Do and priority parseInt base 10. -/
def handleCreateWorkItem (s : CreatorState)
    (remote : CreateArgs → Except String CreateResponse) : List CreateEffect :=
  if !s.hasEdit then
    [CreateEffect.errorToast "Permission Denied" "You do not have permission to create work items."]
  else if s.selectedConfig == "" || s.selectedWorkItemType == "" || jsTrim s.title == "" then
    [CreateEffect.errorToast "Validation Error" "Configuration, type and title are required"]
  else
    let args : CreateArgs :=
      { configName := s.selectedConfig,
        workItemType := s.selectedWorkItemType,
        title := jsTrim s.title,
        description := s.description,
        state := if s.selectedState == "" then "To Do" else s.selectedState,
        priority := jsParseIntEncode s.selectedPriority }
    CreateEffect.createCall args ::
      (match remote args with
       | Except.ok res =>
           if res.success then [CreateEffect.closeModal true res.message]
           else [CreateEffect.errorToast "Creation Failed"
                  (if res.message != "" then res.message else "Unknown error")]
       | Except.error e => [CreateEffect.errorToast "Unexpected Error" e])

/-- The number of createWorkItem invocations among a list of effects. -/
def countCreateCalls (effects : List CreateEffect) : Nat :=
  (effects.filter (fun eff =>
    match eff with
    | CreateEffect.createCall _ => true
    | _ => false)).length

/-! ## The editor's priority encoding (AzureDevOpsWorkItemEditor.handleSave) -/

/-- The priority encoding of handleSave in AzureDevOpsWorkItemEditor:
Number.isInteger(this.priority) keeps an integer number as is; any other
value (the component always holds a string there) goes through parseInt
base 10. -/
def editorPriorityInt (p : JsValue) : JsValue :=
  match p with
  | JsValue.vNum n => JsValue.vNum n
  | _ => jsParseIntEncode (jsToString p)

/-! ## fetchWorkItems (azureIntegration.js) and getWorkItems validation -/

/-- The argument object of the getWorkItems Apex call. -/
structure GetWorkItemsArgs where
  configName : String
  workItemType : Option String
  state : Option String
  maxResults : Int
deriving DecidableEq, Repr

/-- fetchWorkItems from azureIntegration.js: the JavaScript default
parameters workItemType = null, state = null and maxResults = 50 apply
when the caller leaves them unspecified (none). -/
def fetchWorkItems (configName : String) (workItemType : Option String)
    (state : Option String) (maxResults : Option Int) : GetWorkItemsArgs :=
  { configName := configName,
    workItemType := workItemType,
    state := state,
    maxResults := maxResults.getD 50 }

/-- Modelled from the spec: the getWorkItems validation of maxResults
lives in the Apex controller, which is not under src. Per spec section
4.5, maxResults must be a positive integer or the call fails with
ValidationError. -/
def validateMaxResults (n : Int) : Except AzureError Int :=
  if 0 < n then Except.ok n else Except.error AzureError.validationError

/-! ## applyFilters and sortData (part_001, AzureDevOpsWorkItemManager) -/

/-- A work item row as displayed by the manager component. -/
structure WorkItem where
  workItemId : Int
  title : String
  workItemType : String
  state : String
  assignedTo : String
  priority : String
deriving DecidableEq, Repr

/-- The manager component state read by applyFilters and sortData. -/
structure ManagerState where
  workItems : List WorkItem
  searchTerm : String
  selectedTypeFilter : String
  selectedStateFilter : String
  sortedBy : String
  sortedDirection : String
deriving DecidableEq, Repr

/-- Dynamic field access a[k] for the sortable columns, as a JsValue. -/
def fieldOf (k : String) (w : WorkItem) : JsValue :=
  if k == "workItemId" then JsValue.vNum w.workItemId
  else if k == "title" then JsValue.vStr w.title
  else if k == "workItemType" then JsValue.vStr w.workItemType
  else if k == "state" then JsValue.vStr w.state
  else if k == "assignedTo" then JsValue.vStr w.assignedTo
  else if k == "priority" then JsValue.vStr w.priority
  else JsValue.vUndefined

/-- JavaScript strict less-than on the value shapes the comparator can
meet: numbers by integer order, strings lexicographically, anything else
compares false. -/
def jsLt : JsValue → JsValue → Bool
  | JsValue.vNum a, JsValue.vNum b => a < b
  | JsValue.vStr a, JsValue.vStr b => a < b
  | _, _ => false

/-- The comparator body of sortData in part_001: fetch both field
values, lowercase both when the first is a string, then va smaller gives
minus rev, vb smaller gives rev, else zero. -/
def sortCmp (k : String) (rev : Int) (a b : WorkItem) : Int :=
  let va := fieldOf k a
  let vb := fieldOf k b
  let p : JsValue × JsValue :=
    match va with
    | JsValue.vStr s =>
        (JsValue.vStr (jsToLower s),
         match vb with
         | JsValue.vStr t => JsValue.vStr (jsToLower t)
         | other => other)
    | other => (other, vb)
  if jsLt p.1 p.2 then -1 * rev else if jsLt p.2 p.1 then 1 * rev else 0

/-- sortData from part_001: a stable sort of the list under the
comparator, with rev minus one when the direction is desc. -/
def sortData (st : ManagerState) (d : List WorkItem) : List WorkItem :=
  let rev : Int := if st.sortedDirection == "desc" then -1 else 1
  d.mergeSort (fun a b => sortCmp st.sortedBy rev a b ≤ 0)

/-- The search predicate of applyFilters: title, stringified id or
assignee contains the lowercased search term. -/
def searchMatch (s : String) (i : WorkItem) : Bool :=
  jsIncludes (jsToLower i.title) s || jsIncludes (toString i.workItemId) s
    || jsIncludes (jsToLower i.assignedTo) s

/-- applyFilters from part_001: start from the fetched work items, apply
the search filter when the lowercased search term is truthy, then the
type filter when selected, then the state filter when selected, and
finally sortData. -/
def applyFilters (st : ManagerState) : List WorkItem :=
  let f := st.workItems
  let s := jsToLower st.searchTerm
  let f := if s != "" then f.filter (searchMatch s) else f
  let f := if st.selectedTypeFilter != "" then f.filter (fun i => i.workItemType == st.selectedTypeFilter) else f
  let f := if st.selectedStateFilter != "" then f.filter (fun i => i.state == st.selectedStateFilter) else f
  sortData st f

/-! ## UniversalModal (universalModal.js) -/

/-- One dynamic form field of the modal form configuration. -/
structure FieldDef where
  name : String
  required : Bool
deriving DecidableEq, Repr

/-- The modal component state read by handleConfirm and
isConfirmDisabled. -/
structure ModalState where
  modalType : String
  requireReason : Bool
  reason : String
  loading : Bool
  formConfig : Option (List FieldDef)
  formData : List (String × JsValue)
deriving DecidableEq, Repr

/-- The result object the modal closes with. -/
structure CloseResult where
  confirmed : Bool
  reason : Option String
  action : String
  formData : Option (List (String × JsValue))
deriving DecidableEq, Repr

/-- isFormValid from universalModal.js: every required field holds a
value that is neither null nor undefined and whose string form does not
trim to empty; a missing key reads as undefined. -/
def isFormValid (m : ModalState) : Bool :=
  match m.formConfig with
  | none => true
  | some fields =>
      fields.all (fun f =>
        if f.required then
          match (m.formData.find? (fun kv => kv.1 == f.name)).map (fun kv => kv.2) with
          | none => false
          | some JsValue.vNull => false
          | some JsValue.vUndefined => false
          | some v => jsTrim (jsToString v) != ""
        else true)

/-- isConfirmDisabled from universalModal.js. -/
def isConfirmDisabled (m : ModalState) : Bool :=
  if m.modalType == "confirm" then m.requireReason && jsTrim m.reason == ""
  else if m.modalType == "form" then m.loading || !isFormValid m
  else false

/-- handleConfirm from universalModal.js: none means the handler
returned without closing the modal; some r means the modal closed with
result r. -/
def handleConfirm (m : ModalState) : Option CloseResult :=
  if m.modalType == "confirm" then
    if m.requireReason && jsTrim m.reason == "" then none
    else some { confirmed := true, reason := some m.reason, action := "confirm", formData := none }
  else if m.modalType == "form" then
    if !isFormValid m then none
    else some { confirmed := true, reason := none, action := "submit", formData := some m.formData }
  else if m.modalType == "list" then
    some { confirmed := true, reason := none, action := "close", formData := none }
  else
    some { confirmed := true, reason := none, action := "confirm", formData := none }

/-! ## handleDeleteAction (part_001) -/

/-- The argument object of the deleteWorkItemWithReason Apex call. -/
structure DeleteCall where
  configName : String
  workItemId : Int
  reason : Option String
deriving DecidableEq, Repr

/-- The reason forwarded by handleDeleteAction: modalResult.reason with
the JavaScript or-null coercion, so an undefined or empty-string reason
becomes null. -/
def forwardedReason : Option String → Option String
  | none => none
  | some s => if s == "" then none else some s

/-- handleDeleteAction from part_001, as the list of
deleteWorkItemWithReason invocations it performs: none when the modal
result is missing or not confirmed, exactly one otherwise, with the
reason coerced by forwardedReason. -/
def handleDeleteAction (conf : String) (id : Int)
    (modalResult : Option CloseResult) : List DeleteCall :=
  match modalResult with
  | none => []
  | some r =>
      if !r.confirmed then []
      else [{ configName := conf, workItemId := id, reason := forwardedReason r.reason }]

/-! ## Helper lemmas -/

/-- Appending on the left is injective for strings. -/
theorem string_append_right_inj (p : String) {a b : String} (h : p ++ a = p ++ b) : a = b := by
  have hd : (p ++ a).data = (p ++ b).data := congrArg String.data h
  simp only [String.data_append] at hd
  exact String.ext (List.append_cancel_left hd)

/-- The parseInt encoding never yields a string value. -/
theorem jsParseIntEncode_isStr (s : String) : (jsParseIntEncode s).isStr = false := by
  unfold jsParseIntEncode
  cases jsParseInt10 s <;> rfl

/-! ## Claims -/

/-- C1: for every create operation, a state field whose value matches a
configured terminal-state name (case-insensitively) is stripped before
encoding, so the emitted create patch never contains an operation for
the state field. -/
theorem C1_create_strips_terminal_state
    (fields : List (String × JsValue)) (v : String)
    (hlook : lookupField "System.State" fields = some (JsValue.vStr v))
    (hterm : isTerminalState v = true) :
    (buildCreatePatch fields).all (fun op => op.path != "/fields/System.State") = true := by
  simp only [buildCreatePatch, removeTerminalState, hlook, hterm, if_pos]
  simp only [buildPatch, List.all_eq_true, List.mem_map, List.mem_filter]
  rintro op ⟨kv, ⟨hkvmem, hkvne⟩, rfl⟩
  simp only [bne_iff_ne, ne_eq] at hkvne ⊢
  intro heq
  exact hkvne (string_append_right_inj "/fields/" heq)

/-- Witness for C1 at the create from the spec scenario: a Task titled
Fix login bug created with state Done. -/
theorem C1_create_strips_terminal_state_witness :
    lookupField "System.State"
        [("System.Title", JsValue.vStr "Fix login bug"), ("System.State", JsValue.vStr "Done")]
      = some (JsValue.vStr "Done")
    ∧ isTerminalState "Done" = true
    ∧ (buildCreatePatch
        [("System.Title", JsValue.vStr "Fix login bug"), ("System.State", JsValue.vStr "Done")]).all
        (fun op => op.path != "/fields/System.State") = true :=
  ⟨by decide, by decide,
    C1_create_strips_terminal_state
      [("System.Title", JsValue.vStr "Fix login bug"), ("System.State", JsValue.vStr "Done")]
      "Done" (by decide) (by decide)⟩

/-- C2: when the managed-credential strategy fails with a domain error
and a secret token is present, the secret-token strategy is attempted
exactly once, the final result is the fallback outcome, and exactly two
authentication attempts are observed. -/
theorem C2_dual_auth_fallback (R : Type) (cfg : AuthConfig)
    (secret : Except AzureError R) (e : AzureError)
    (h1 : cfg.hasNamedCredential = true)
    (h2 : cfg.hasPersonalAccessToken = true) :
    resolveAuth cfg (Except.error e) secret
        = (secret, [AuthAttempt.managed, AuthAttempt.secretToken])
      ∧ ((resolveAuth cfg (Except.error e) secret).2).length = 2 := by
  simp [resolveAuth, h1, h2]

/-- Witness for C2: both strategies configured, managed fails, and a
failing fallback propagates as the final error after two attempts. -/
theorem C2_dual_auth_fallback_witness :
    AuthConfig.hasNamedCredential { namedCredential := some "AzureDevOps_POC", personalAccessToken := some "pat" } = true
    ∧ AuthConfig.hasPersonalAccessToken { namedCredential := some "AzureDevOps_POC", personalAccessToken := some "pat" } = true
    ∧ resolveAuth { namedCredential := some "AzureDevOps_POC", personalAccessToken := some "pat" }
        (Except.error (AzureError.authenticationError "managed failed"))
        (Except.error (AzureError.authenticationError "secret failed") : Except AzureError Nat)
      = (Except.error (AzureError.authenticationError "secret failed"),
         [AuthAttempt.managed, AuthAttempt.secretToken]) :=
  ⟨by decide, by decide,
    (C2_dual_auth_fallback Nat
      { namedCredential := some "AzureDevOps_POC", personalAccessToken := some "pat" }
      (Except.error (AzureError.authenticationError "secret failed"))
      (AzureError.authenticationError "managed failed") (by decide) (by decide)).1⟩

/-- C3: when getPriorities yields an empty sequence or a failure, the
priority options are exactly the four-level default sequence with
non-empty labels, and the options are never empty. -/
theorem C3_priorities_default :
    (∀ e, loadPriorities (Except.error e) = getDefaultPriorityOptions)
    ∧ loadPriorities (Except.ok none) = getDefaultPriorityOptions
    ∧ loadPriorities (Except.ok (some [])) = getDefaultPriorityOptions
    ∧ getDefaultPriorityOptions
        = [{ label := "1", value := "1" }, { label := "2", value := "2" },
           { label := "3", value := "3" }, { label := "4", value := "4" }]
    ∧ getDefaultPriorityOptions.all (fun o => o.label != "") = true
    ∧ (∀ r, (loadPriorities r).isEmpty = false) := by
  refine ⟨fun e => rfl, rfl, rfl, rfl, rfl, fun r => ?_⟩
  match r with
  | Except.error e => rfl
  | Except.ok none => rfl
  | Except.ok (some []) => rfl
  | Except.ok (some (p :: ps)) => simp [loadPriorities]

/-- C4: with hasEdit false, handleCreateWorkItem returns with a
permission-denied error and zero createWorkItem invocations, and the
row-action column built by buildColumns contains no Edit or Delete
actions. -/
theorem C4_no_write_without_permission
    (s : CreatorState) (remote : CreateArgs → Except String CreateResponse)
    (h : s.hasEdit = false) :
    handleCreateWorkItem s remote
        = [CreateEffect.errorToast "Permission Denied"
            "You do not have permission to create work items."]
      ∧ countCreateCalls (handleCreateWorkItem s remote) = 0
      ∧ rowActionNames (buildColumns false) = ["open_azure"] := by
  refine ⟨?_, ?_, rfl⟩
  · simp [handleCreateWorkItem, h]
  · simp [handleCreateWorkItem, h, countCreateCalls]

/-- Witness for C4: a fully filled form still produces only the
permission-denied toast when hasEdit is false. -/
theorem C4_no_write_without_permission_witness :
    ({ hasEdit := false, selectedConfig := "standard", selectedWorkItemType := "Task",
       title := "Fix login bug", description := "d", selectedState := "To Do",
       selectedPriority := "2" } : CreatorState).hasEdit = false
    ∧ handleCreateWorkItem
        { hasEdit := false, selectedConfig := "standard", selectedWorkItemType := "Task",
          title := "Fix login bug", description := "d", selectedState := "To Do",
          selectedPriority := "2" }
        (fun _ => Except.error "no network")
      = [CreateEffect.errorToast "Permission Denied"
          "You do not have permission to create work items."] :=
  ⟨rfl,
    (C4_no_write_without_permission
      { hasEdit := false, selectedConfig := "standard", selectedWorkItemType := "Task",
        title := "Fix login bug", description := "d", selectedState := "To Do",
        selectedPriority := "2" }
      (fun _ => Except.error "no network") rfl).1⟩

/-- C5: a getWorkItems call with maxResults unspecified is issued with
maxResults 50, and maxResults must be positive or the call fails with
ValidationError. -/
theorem C5_maxResults_default_and_validation
    (c : String) (t st : Option String) :
    (fetchWorkItems c t st none).maxResults = 50
    ∧ validateMaxResults 50 = Except.ok 50
    ∧ (∀ n : Int, 0 < n → validateMaxResults n = Except.ok n)
    ∧ (∀ n : Int, n ≤ 0 → validateMaxResults n = Except.error AzureError.validationError) := by
  refine ⟨rfl, rfl, fun n hn => ?_, fun n hn => ?_⟩
  · simp [validateMaxResults, hn]
  · simp [validateMaxResults, not_lt.mpr hn]

/-- Witness for C5 at a concrete call and concrete bounds. -/
theorem C5_maxResults_default_and_validation_witness :
    (fetchWorkItems "standard" none none none).maxResults = 50
    ∧ ((0 : Int) < 1 ∧ validateMaxResults 1 = Except.ok 1)
    ∧ ((0 : Int) ≤ 0 ∧ validateMaxResults 0 = Except.error AzureError.validationError) :=
  ⟨(C5_maxResults_default_and_validation "standard" none none).1,
   ⟨by decide, (C5_maxResults_default_and_validation "standard" none none).2.2.1 1 (by decide)⟩,
   ⟨by decide, (C5_maxResults_default_and_validation "standard" none none).2.2.2 0 (by decide)⟩⟩

/-- C6: every createWorkItem and updateWorkItem invocation encodes the
priority field as the base-10 integer parsed from the selected priority
string, never as a string. -/
theorem C6_priority_encoded_as_number :
    (∀ (s : CreatorState) (remote : CreateArgs → Except String CreateResponse)
        (args : CreateArgs),
        CreateEffect.createCall args ∈ handleCreateWorkItem s remote →
          args.priority = jsParseIntEncode s.selectedPriority
          ∧ args.priority.isStr = false)
    ∧ (∀ p : String,
        editorPriorityInt (JsValue.vStr p) = jsParseIntEncode p
        ∧ (editorPriorityInt (JsValue.vStr p)).isStr = false)
    ∧ (∀ p : JsValue, (editorPriorityInt p).isStr = false)
    ∧ jsParseIntEncode "2" = JsValue.vNum 2 := by
  refine ⟨?_, fun p => ⟨rfl, jsParseIntEncode_isStr p⟩,
    fun p => by cases p <;> first | rfl | exact jsParseIntEncode_isStr _,
    by decide⟩
  intro s remote args hmem
  unfold handleCreateWorkItem at hmem
  split at hmem
  · simp at hmem
  · split at hmem
    · simp at hmem
    · rcases List.mem_cons.mp hmem with h | h
      · have hargs := (CreateEffect.createCall.injEq _ _).mp h.symm
        subst hargs
        exact ⟨rfl, jsParseIntEncode_isStr _⟩
      · exfalso
        revert h
        split
        · split <;> simp
        · simp

/-- Witness for C6: a concrete submitted create carries priority as the
number two parsed from the string two. -/
theorem C6_priority_encoded_as_number_witness :
    CreateEffect.createCall
        { configName := "standard", workItemType := "Task", title := "T",
          description := "", state := "To Do", priority := JsValue.vNum 2 }
      ∈ handleCreateWorkItem
          { hasEdit := true, selectedConfig := "standard", selectedWorkItemType := "Task",
            title := "T", description := "", selectedState := "To Do", selectedPriority := "2" }
          (fun _ => Except.error "offline")
    ∧ ({ configName := "standard", workItemType := "Task", title := "T",
         description := "", state := "To Do", priority := JsValue.vNum 2 } : CreateArgs).priority
        = jsParseIntEncode "2"
    ∧ (JsValue.vNum 2).isStr = false :=
  ⟨by decide,
   (C6_priority_encoded_as_number.1
      { hasEdit := true, selectedConfig := "standard", selectedWorkItemType := "Task",
        title := "T", description := "", selectedState := "To Do", selectedPriority := "2" }
      (fun _ => Except.error "offline")
      { configName := "standard", workItemType := "Task", title := "T",
        description := "", state := "To Do", priority := JsValue.vNum 2 }
      (by decide)).1,
   rfl⟩

/-- C7: with no search term, the displayed list is exactly the fetched
items passing the optional post-fetch type and state predicates; with no
filter selected all fetched items are retained. -/
theorem C7_post_fetch_filters (st : ManagerState) (h : st.searchTerm = "") :
    List.Perm (applyFilters st)
      (st.workItems.filter (fun i =>
        (st.selectedTypeFilter == "" || i.workItemType == st.selectedTypeFilter)
        && (st.selectedStateFilter == "" || i.state == st.selectedStateFilter)))
    ∧ (∀ w, w ∈ applyFilters st ↔
        (w ∈ st.workItems
         ∧ (st.selectedTypeFilter = "" ∨ w.workItemType = st.selectedTypeFilter)
         ∧ (st.selectedStateFilter = "" ∨ w.state = st.selectedStateFilter))) := by
  have hs : jsToLower st.searchTerm = "" := by rw [h]; rfl
  have hL : applyFilters st
      = sortData st
          (let f := st.workItems
           let f := if st.selectedTypeFilter != "" then
               f.filter (fun i => i.workItemType == st.selectedTypeFilter) else f
           if st.selectedStateFilter != "" then
               f.filter (fun i => i.state == st.selectedStateFilter) else f) := by
    unfold applyFilters
    rw [hs]
    rfl
  have hEq :
      (let f := st.workItems
       let f := if st.selectedTypeFilter != "" then
           f.filter (fun i => i.workItemType == st.selectedTypeFilter) else f
       if st.selectedStateFilter != "" then
           f.filter (fun i => i.state == st.selectedStateFilter) else f)
      = st.workItems.filter (fun i =>
          (st.selectedTypeFilter == "" || i.workItemType == st.selectedTypeFilter)
          && (st.selectedStateFilter == "" || i.state == st.selectedStateFilter)) := by
    by_cases ht : st.selectedTypeFilter = ""
    · by_cases hst : st.selectedStateFilter = ""
      · simp [ht, hst]
      · have hstb : (st.selectedStateFilter == "") = false := beq_eq_false_iff_ne.mpr hst
        simp [ht, hst, hstb]
    · have htb : (st.selectedTypeFilter == "") = false := beq_eq_false_iff_ne.mpr ht
      by_cases hst : st.selectedStateFilter = ""
      · simp [ht, hst, htb]
      · have hstb : (st.selectedStateFilter == "") = false := beq_eq_false_iff_ne.mpr hst
        simp only [ht, hst, bne_iff_ne, ne_eq, not_false_eq_true, if_true,
          List.filter_filter]
        refine List.filter_congr (fun a _ => ?_)
        simp [htb, hstb, Bool.and_comm]
  have hperm : List.Perm (applyFilters st)
      (st.workItems.filter (fun i =>
        (st.selectedTypeFilter == "" || i.workItemType == st.selectedTypeFilter)
        && (st.selectedStateFilter == "" || i.state == st.selectedStateFilter))) := by
    rw [hL, hEq]
    unfold sortData
    exact List.mergeSort_perm _ _
  refine ⟨hperm, fun w => ?_⟩
  rw [hperm.mem_iff, List.mem_filter]
  constructor
  · rintro ⟨hmem, hcond⟩
    simp only [Bool.and_eq_true, Bool.or_eq_true, beq_iff_eq] at hcond
    exact ⟨hmem, hcond.1, hcond.2⟩
  · rintro ⟨hmem, hc1, hc2⟩
    refine ⟨hmem, ?_⟩
    simp only [Bool.and_eq_true, Bool.or_eq_true, beq_iff_eq]
    exact ⟨hc1, hc2⟩

/-- Witness for C7: two fetched items and a selected type filter Bug
keep exactly the Bug item. -/
theorem C7_post_fetch_filters_witness :
    ({ workItems :=
         [{ workItemId := 1, title := "B", workItemType := "Bug", state := "To Do",
            assignedTo := "a", priority := "2" },
          { workItemId := 2, title := "T", workItemType := "Task", state := "Doing",
            assignedTo := "b", priority := "3" }],
       searchTerm := "", selectedTypeFilter := "Bug", selectedStateFilter := "",
       sortedBy := "title", sortedDirection := "asc" } : ManagerState).searchTerm = ""
    ∧ List.Perm
        (applyFilters
          { workItems :=
              [{ workItemId := 1, title := "B", workItemType := "Bug", state := "To Do",
                 assignedTo := "a", priority := "2" },
               { workItemId := 2, title := "T", workItemType := "Task", state := "Doing",
                 assignedTo := "b", priority := "3" }],
            searchTerm := "", selectedTypeFilter := "Bug", selectedStateFilter := "",
            sortedBy := "title", sortedDirection := "asc" })
        ([{ workItemId := 1, title := "B", workItemType := "Bug", state := "To Do",
            assignedTo := "a", priority := "2" },
          { workItemId := 2, title := "T", workItemType := "Task", state := "Doing",
            assignedTo := "b", priority := "3" }].filter (fun i =>
              (("Bug" : String) == "" || i.workItemType == "Bug")
              && (("" : String) == "" || i.state == ""))) :=
  ⟨rfl,
    (C7_post_fetch_filters
      { workItems :=
          [{ workItemId := 1, title := "B", workItemType := "Bug", state := "To Do",
             assignedTo := "a", priority := "2" },
           { workItemId := 2, title := "T", workItemType := "Task", state := "Doing",
             assignedTo := "b", priority := "3" }],
        searchTerm := "", selectedTypeFilter := "Bug", selectedStateFilter := "",
        sortedBy := "title", sortedDirection := "asc" } rfl).1⟩

/-- C8: for a confirm-type modal with requireReason, handleConfirm does
not close while the reason trims to empty, the confirm button is
disabled exactly then, and every confirmed result carries the non-blank
reason. -/
theorem C8_confirm_requires_reason (m : ModalState)
    (h1 : m.modalType = "confirm") (h2 : m.requireReason = true) :
    ((handleConfirm m = none) ↔ jsTrim m.reason = "")
    ∧ (isConfirmDisabled m = true ↔ jsTrim m.reason = "")
    ∧ (∀ r, handleConfirm m = some r →
        r.confirmed = true ∧ r.reason = some m.reason ∧ jsTrim m.reason ≠ "") := by
  by_cases hr : jsTrim m.reason = ""
  · simp [handleConfirm, isConfirmDisabled, h1, h2, hr]
  · have hc : handleConfirm m
        = some { confirmed := true, reason := some m.reason, action := "confirm",
                 formData := none } := by
      simp [handleConfirm, h1, h2, hr]
    refine ⟨by simp [hc, hr], by simp [isConfirmDisabled, h1, h2, hr], ?_⟩
    rintro r hsome
    rw [hc] at hsome
    cases Option.some.inj hsome
    exact ⟨rfl, rfl, hr⟩

/-- Witness for C8: a confirm modal requiring a reason, with a non-blank
reason typed, closes confirmed and carries that reason. -/
theorem C8_confirm_requires_reason_witness :
    handleConfirm
        { modalType := "confirm", requireReason := true, reason := "duplicate",
          loading := false, formConfig := none, formData := [] }
      = some { confirmed := true, reason := some "duplicate", action := "confirm",
               formData := none }
    ∧ isConfirmDisabled
        { modalType := "confirm", requireReason := true, reason := "duplicate",
          loading := false, formConfig := none, formData := [] } = false
    ∧ jsTrim "duplicate" ≠ "" :=
  ⟨by decide, by decide,
    ((C8_confirm_requires_reason
        { modalType := "confirm", requireReason := true, reason := "duplicate",
          loading := false, formConfig := none, formData := [] } rfl rfl).2.2
      { confirmed := true, reason := some "duplicate", action := "confirm", formData := none }
      (by decide)).2.2⟩

/-- C9: a thrown hasEditPermission call yields hasEdit false, the same
as an explicit denial, and the columns built from it carry only the
Open in Azure row action. -/
theorem C9_failed_permission_fails_closed (e : String) :
    checkPermission (Except.error e) = false
    ∧ checkPermission (Except.error e) = checkPermission (Except.ok (JsValue.vBool false))
    ∧ rowActionNames (buildColumns (checkPermission (Except.error e))) = ["open_azure"] :=
  ⟨rfl, rfl, rfl⟩

/-- C10: handleDeleteAction deletes at most once, only on a confirmed
modal result, and coerces an absent or empty reason to null. -/
theorem C10_delete_once_confirmed (conf : String) (id : Int) (mr : Option CloseResult) :
    (handleDeleteAction conf id mr).length ≤ 1
    ∧ handleDeleteAction conf id none = []
    ∧ (∀ r, mr = some r → r.confirmed = false → handleDeleteAction conf id mr = [])
    ∧ (∀ r, mr = some r → r.confirmed = true →
        handleDeleteAction conf id mr
          = [{ configName := conf, workItemId := id, reason := forwardedReason r.reason }])
    ∧ forwardedReason (some "") = none
    ∧ forwardedReason none = none := by
  refine ⟨?_, rfl, ?_, ?_, rfl, rfl⟩
  · cases mr with
    | none => simp [handleDeleteAction]
    | some r => cases hr : r.confirmed <;> simp [handleDeleteAction, hr]
  · rintro r rfl hc
    simp [handleDeleteAction, hc]
  · rintro r rfl hc
    simp [handleDeleteAction, hc]

/-- Witness for C10: a confirmed modal result with an empty-string
reason produces exactly one delete call whose reason is null. -/
theorem C10_delete_once_confirmed_witness :
    handleDeleteAction "standard" 42
        (some { confirmed := true, reason := some "", action := "confirm", formData := none })
      = [{ configName := "standard", workItemId := 42, reason := none }] := by
  have happ := (C10_delete_once_confirmed "standard" 42
      (some { confirmed := true, reason := some "", action := "confirm",
              formData := none })).2.2.2.1
      { confirmed := true, reason := some "", action := "confirm", formData := none } rfl rfl
  simpa [forwardedReason] using happ
